import Mathlib

/-!
Verification of the KOA frailty risk-scoring app (`src/app.py`).

The only logic in the repository is the scorer `calculate_shap_values` and
the tier classifier `get_risk_recommendation`.  Both are pure arithmetic
over the eleven input fields, embedded here over `ℚ`.
-/

/-- The eleven fields of one patient record, mirroring the keys of the
`sample_data` dictionary in `src/app.py` (all numeric inputs; categorical
fields take small integer values, continuous fields take arbitrary
rationals within their declared ranges). -/
structure PatientRecord where
  FTSST : ℚ
  Complications : ℚ
  fall : ℚ
  bl_crp : ℚ
  PA : ℚ
  bl_hgb : ℚ
  smoke : ℚ
  gender : ℚ
  age : ℚ
  bmi : ℚ
  ADL : ℚ
deriving DecidableEq

/-- The declared input domains of §3 of the data model: the ranges of the
sliders and the option sets of the select boxes in `src/app.py`. -/
def inDomain (r : PatientRecord) : Prop :=
  40 ≤ r.age ∧ r.age ≤ 110 ∧ r.age.den = 1 ∧
  (r.gender = 0 ∨ r.gender = 1) ∧
  15 ≤ r.bmi ∧ r.bmi ≤ 40 ∧
  (r.smoke = 0 ∨ r.smoke = 1) ∧
  (r.FTSST = 0 ∨ r.FTSST = 1) ∧
  (r.ADL = 0 ∨ r.ADL = 1) ∧
  (r.PA = 0 ∨ r.PA = 1 ∨ r.PA = 2) ∧
  (r.Complications = 0 ∨ r.Complications = 1 ∨ r.Complications = 2) ∧
  (r.fall = 0 ∨ r.fall = 1) ∧
  0 ≤ r.bl_crp ∧ r.bl_crp ≤ 30 ∧
  50 ≤ r.bl_hgb ∧ r.bl_hgb ≤ 250

instance (r : PatientRecord) : Decidable (inDomain r) := by
  unfold inDomain; infer_instance

/-- Names of the eleven features, in the order of the `sample_data`
dictionary in `src/app.py`. -/
inductive Feature where
  | FTSST | Complications | fall | bl_crp | PA | bl_hgb
  | smoke | gender | age | bmi | ADL
deriving DecidableEq

/-- The feature order used by the scorer (`features = list(sample_data.keys())`). -/
def allFields : List Feature :=
  [.FTSST, .Complications, .fall, .bl_crp, .PA, .bl_hgb,
   .smoke, .gender, .age, .bmi, .ADL]

/-- The per-feature contribution assigned by `calculate_shap_values`
(`src/app.py` lines 161-173), one entry of the `shap_values` array. -/
def shap_value (r : PatientRecord) : Feature → ℚ
  | .age => 8/100 * (r.age / 71)
  | .FTSST => 6/100 * r.FTSST
  | .bmi => 5/100 * (r.bmi / 26)
  | .Complications => 4/100 * r.Complications
  | .fall => 3/100 * r.fall
  | .ADL => 2/100 * r.ADL
  | .bl_crp => 1/100 * (r.bl_crp / 9)
  | .gender => 4/100 * r.gender
  | .PA => -(2/100) * (2 - r.PA)
  | .smoke => -(3/100) * (1 - r.smoke)
  | .bl_hgb => -(1/100)

/-- `shap_values.sum()` in `src/app.py` line 177. -/
def shap_sum (r : PatientRecord) : ℚ :=
  (allFields.map (shap_value r)).sum

/-- `base_value = 0.35` (`src/app.py` line 176). -/
def base_value : ℚ := 35/100

/-- The unclamped prediction `base_value + shap_values.sum()`
(`src/app.py` line 177). -/
def current_value_raw (r : PatientRecord) : ℚ :=
  base_value + shap_sum r

/-- `max(0.01, min(0.99, x))` (`src/app.py` line 178). -/
def clamp (lo hi x : ℚ) : ℚ := max lo (min hi x)

/-- The final probability returned by `calculate_shap_values`. -/
def current_value (r : PatientRecord) : ℚ :=
  clamp (1/100) (99/100) (current_value_raw r)

/-- The numeric part of the return value of `calculate_shap_values`:
base value, clamped probability, and the per-feature contribution vector. -/
structure ShapResult where
  base_value : ℚ
  current_value : ℚ
  shap_values : Feature → ℚ

/-- The scorer `calculate_shap_values` of `src/app.py` (lines 135-180),
restricted to its numeric outputs (the display-name lists it also returns
are presentation data). -/
def calculate_shap_values (r : PatientRecord) : ShapResult :=
  { base_value := base_value
    current_value := current_value r
    shap_values := shap_value r }

/-- Guidance text of the high-risk branch of `get_risk_recommendation`. -/
def high_text : String :=
  "⚠️ High risk: immediate clinical intervention recommended\n\n• Weekly follow-up monitoring\n• Physical therapy intervention is necessary\n• Comprehensive assessment of complications\n• Multidisciplinary team management\n• Emergency nutritional support"

/-- Guidance text of the medium-risk branch of `get_risk_recommendation`. -/
def medium_text : String :=
  "⚠️ Medium risk: It is recommended to regularly monitor\n\n• Assess every 3-6 months\n• Suggest moderate exercise plan\n• Basic Nutritional Assessment\n• Fall prevention education\n• Regular functional assessment"

/-- Guidance text of the low-risk branch of `get_risk_recommendation`. -/
def low_text : String :=
  "✅ Low risk: Recommended for routine health management\n\n• Annual physical examination\n• Maintain a healthy lifestyle\n• Preventive Health Guidance\n• Moderate physical activity\n• Balanced nutritional intake"

/-- The tier classifier `get_risk_recommendation` of `src/app.py`
(lines 234-265): strict thresholds 0.7 and 0.45, returning the tier name
and its fixed guidance text. -/
def get_risk_recommendation (probability : ℚ) : String × String :=
  if probability > 7/10 then ("high", high_text)
  else if probability > 45/100 then ("medium", medium_text)
  else ("low", low_text)

/-! ## Concrete records used by the claims -/

/-- Scenario 1 of §8: all fields at the documented minimum form defaults
(age=40, gender=0, bmi=18.5, smoke=0, FTSST=0, ADL=0, PA=0,
Complications=0, fall=0, bl_crp=0.0, bl_hgb=120.0). -/
def scenario1 : PatientRecord :=
  { FTSST := 0, Complications := 0, fall := 0, bl_crp := 0, PA := 0,
    bl_hgb := 120, smoke := 0, gender := 0, age := 40, bmi := 37/2, ADL := 0 }

/-- Scenario 2 of §8: every risk-raising field at its maximum
(age=110, gender=1, bmi=40.0, smoke=1, FTSST=1, ADL=1, PA=2,
Complications=2, fall=1, bl_crp=30.0, bl_hgb=50.0). -/
def scenario2 : PatientRecord :=
  { FTSST := 1, Complications := 2, fall := 1, bl_crp := 30, PA := 2,
    bl_hgb := 50, smoke := 1, gender := 1, age := 110, bmi := 40, ADL := 1 }

/-! ## Helper lemmas -/

/-- Clamping is monotone in its argument. -/
theorem clamp_mono {lo hi x y : ℚ} (h : x ≤ y) : clamp lo hi x ≤ clamp lo hi y :=
  max_le_max le_rfl (min_le_min le_rfl h)

/-- Closed form of the unclamped prediction as one linear expression in the
eleven fields. -/
theorem current_value_raw_formula (r : PatientRecord) :
    current_value_raw r =
      35/100 + 8/100 * (r.age / 71) + 6/100 * r.FTSST + 5/100 * (r.bmi / 26) +
      4/100 * r.Complications + 3/100 * r.fall + 2/100 * r.ADL +
      1/100 * (r.bl_crp / 9) + 4/100 * r.gender + -(2/100) * (2 - r.PA) +
      -(3/100) * (1 - r.smoke) + -(1/100) := by
  simp [current_value_raw, shap_sum, allFields, shap_value, base_value]
  ring

/-! ## Claim theorems -/

/-- C1: for every in-domain PatientRecord, `calculate_shap_values` returns
base value exactly 0.35, the eleven fixed linear per-field contributions of
§4.1, and a probability equal to `clamp(base + sum of contributions, 0.01, 0.99)`. -/
theorem scorer_matches_formula_table (r : PatientRecord) (h : inDomain r) :
    (calculate_shap_values r).base_value = 35/100 ∧
    (calculate_shap_values r).shap_values Feature.age = 8/100 * (r.age / 71) ∧
    (calculate_shap_values r).shap_values Feature.FTSST = 6/100 * r.FTSST ∧
    (calculate_shap_values r).shap_values Feature.bmi = 5/100 * (r.bmi / 26) ∧
    (calculate_shap_values r).shap_values Feature.Complications = 4/100 * r.Complications ∧
    (calculate_shap_values r).shap_values Feature.fall = 3/100 * r.fall ∧
    (calculate_shap_values r).shap_values Feature.ADL = 2/100 * r.ADL ∧
    (calculate_shap_values r).shap_values Feature.bl_crp = 1/100 * (r.bl_crp / 9) ∧
    (calculate_shap_values r).shap_values Feature.gender = 4/100 * r.gender ∧
    (calculate_shap_values r).shap_values Feature.PA = -(2/100) * (2 - r.PA) ∧
    (calculate_shap_values r).shap_values Feature.smoke = -(3/100) * (1 - r.smoke) ∧
    (calculate_shap_values r).shap_values Feature.bl_hgb = -(1/100) ∧
    (calculate_shap_values r).current_value =
      clamp (1/100) (99/100)
        ((calculate_shap_values r).base_value +
          (allFields.map ((calculate_shap_values r).shap_values)).sum) :=
  ⟨rfl, rfl, rfl, rfl, rfl, rfl, rfl, rfl, rfl, rfl, rfl, rfl, rfl⟩

/-- Witness for C1: the formula table holds at the concrete scenario-1 record. -/
theorem scorer_matches_formula_table_witness :
    (calculate_shap_values scenario1).base_value = 35/100 :=
  (scorer_matches_formula_table scenario1 (by norm_num [inDomain, scenario1])).1

/-- C2: the classifier implements Variant B with strict inequalities:
"high" iff p > 0.7, "medium" iff 0.45 < p ≤ 0.7, "low" otherwise; in
particular classify(0.70) = "medium" and classify(0.700001) = "high". -/
theorem classifier_variant_B_strict :
    (∀ p : ℚ,
      ((get_risk_recommendation p).1 = "high" ↔ p > 7/10) ∧
      ((get_risk_recommendation p).1 = "medium" ↔ 45/100 < p ∧ p ≤ 7/10) ∧
      ((get_risk_recommendation p).1 = "low" ↔ p ≤ 45/100)) ∧
    (get_risk_recommendation (70/100)).1 = "medium" ∧
    (get_risk_recommendation (700001/1000000)).1 = "high" := by
  refine ⟨fun p => ?_, by norm_num [get_risk_recommendation], by norm_num [get_risk_recommendation]⟩
  unfold get_risk_recommendation
  split_ifs with h1 h2
  · exact ⟨⟨fun _ => h1, fun _ => rfl⟩,
      ⟨fun hx => absurd hx (by simp), fun hx => absurd h1 (not_lt.mpr hx.2)⟩,
      ⟨fun hx => absurd hx (by simp), fun hx => absurd h1 (not_lt.mpr (hx.trans (by norm_num)))⟩⟩
  · exact ⟨⟨fun hx => absurd hx (by simp), fun hx => absurd hx h1⟩,
      ⟨fun _ => ⟨h2, not_lt.mp h1⟩, fun _ => rfl⟩,
      ⟨fun hx => absurd hx (by simp), fun hx => absurd h2 (not_lt.mpr hx)⟩⟩
  · exact ⟨⟨fun hx => absurd hx (by simp), fun hx => absurd hx h1⟩,
      ⟨fun hx => absurd hx (by simp), fun hx => absurd hx.1 h2⟩,
      ⟨fun _ => not_lt.mp h2, fun _ => rfl⟩⟩

/-- C3: for every in-domain PatientRecord the returned probability lies in
the closed interval [0.01, 0.99]. -/
theorem probability_clamped_in_unit_window (r : PatientRecord) (h : inDomain r) :
    1/100 ≤ (calculate_shap_values r).current_value ∧
    (calculate_shap_values r).current_value ≤ 99/100 :=
  ⟨le_max_left _ _, max_le (by norm_num) (min_le_left _ _)⟩

/-- Witness for C3: the clamp invariant holds at the concrete scenario-2 record. -/
theorem probability_clamped_in_unit_window_witness :
    1/100 ≤ (calculate_shap_values scenario2).current_value ∧
    (calculate_shap_values scenario2).current_value ≤ 99/100 :=
  probability_clamped_in_unit_window scenario2 (by norm_num [inDomain, scenario2])

/-- C4: the sum of the eleven returned contributions plus the returned base
value equals the unclamped prediction exactly, in particular within the
tolerance 1e-9. -/
theorem contributions_sum_to_raw_prediction (r : PatientRecord) (h : inDomain r) :
    (allFields.map ((calculate_shap_values r).shap_values)).sum +
      (calculate_shap_values r).base_value = current_value_raw r ∧
    |(allFields.map ((calculate_shap_values r).shap_values)).sum +
      (calculate_shap_values r).base_value - current_value_raw r| ≤ 1/1000000000 := by
  have h1 : (allFields.map ((calculate_shap_values r).shap_values)).sum +
      (calculate_shap_values r).base_value = current_value_raw r := by
    simp only [calculate_shap_values, current_value_raw, shap_sum]
    exact add_comm _ _
  exact ⟨h1, by rw [h1, sub_self, abs_zero]; norm_num⟩

/-- Witness for C4: the additivity identity holds at the concrete scenario-1 record. -/
theorem contributions_sum_to_raw_prediction_witness :
    (allFields.map ((calculate_shap_values scenario1).shap_values)).sum +
      (calculate_shap_values scenario1).base_value = current_value_raw scenario1 :=
  (contributions_sum_to_raw_prediction scenario1 (by norm_num [inDomain, scenario1])).1

/-- C5: for in-domain records agreeing on all fields but one
positive-weighted field (age, FTSST, bmi, Complications, fall, ADL, bl_crp,
gender), a larger value of that field never yields a smaller probability. -/
theorem positive_fields_monotone :
    (∀ (r : PatientRecord) (a₁ a₂ : ℚ), inDomain { r with age := a₁ } →
      inDomain { r with age := a₂ } → a₁ ≤ a₂ →
      (calculate_shap_values { r with age := a₁ }).current_value ≤
        (calculate_shap_values { r with age := a₂ }).current_value) ∧
    (∀ (r : PatientRecord) (a₁ a₂ : ℚ), inDomain { r with FTSST := a₁ } →
      inDomain { r with FTSST := a₂ } → a₁ ≤ a₂ →
      (calculate_shap_values { r with FTSST := a₁ }).current_value ≤
        (calculate_shap_values { r with FTSST := a₂ }).current_value) ∧
    (∀ (r : PatientRecord) (a₁ a₂ : ℚ), inDomain { r with bmi := a₁ } →
      inDomain { r with bmi := a₂ } → a₁ ≤ a₂ →
      (calculate_shap_values { r with bmi := a₁ }).current_value ≤
        (calculate_shap_values { r with bmi := a₂ }).current_value) ∧
    (∀ (r : PatientRecord) (a₁ a₂ : ℚ), inDomain { r with Complications := a₁ } →
      inDomain { r with Complications := a₂ } → a₁ ≤ a₂ →
      (calculate_shap_values { r with Complications := a₁ }).current_value ≤
        (calculate_shap_values { r with Complications := a₂ }).current_value) ∧
    (∀ (r : PatientRecord) (a₁ a₂ : ℚ), inDomain { r with fall := a₁ } →
      inDomain { r with fall := a₂ } → a₁ ≤ a₂ →
      (calculate_shap_values { r with fall := a₁ }).current_value ≤
        (calculate_shap_values { r with fall := a₂ }).current_value) ∧
    (∀ (r : PatientRecord) (a₁ a₂ : ℚ), inDomain { r with ADL := a₁ } →
      inDomain { r with ADL := a₂ } → a₁ ≤ a₂ →
      (calculate_shap_values { r with ADL := a₁ }).current_value ≤
        (calculate_shap_values { r with ADL := a₂ }).current_value) ∧
    (∀ (r : PatientRecord) (a₁ a₂ : ℚ), inDomain { r with bl_crp := a₁ } →
      inDomain { r with bl_crp := a₂ } → a₁ ≤ a₂ →
      (calculate_shap_values { r with bl_crp := a₁ }).current_value ≤
        (calculate_shap_values { r with bl_crp := a₂ }).current_value) ∧
    (∀ (r : PatientRecord) (a₁ a₂ : ℚ), inDomain { r with gender := a₁ } →
      inDomain { r with gender := a₂ } → a₁ ≤ a₂ →
      (calculate_shap_values { r with gender := a₁ }).current_value ≤
        (calculate_shap_values { r with gender := a₂ }).current_value) := by
  refine ⟨?_, ?_, ?_, ?_, ?_, ?_, ?_, ?_⟩
  all_goals
    intro r a₁ a₂ _ _ hle
    simp only [calculate_shap_values]
    unfold current_value
    apply clamp_mono
    rw [current_value_raw_formula, current_value_raw_formula]
    simp only
    linarith

/-- Witness for C5: raising age from 40 to 50 on the scenario-1 record does
not decrease the probability. -/
theorem positive_fields_monotone_witness :
    (calculate_shap_values { scenario1 with age := 40 }).current_value ≤
      (calculate_shap_values { scenario1 with age := 50 }).current_value :=
  positive_fields_monotone.1 scenario1 40 50 (by norm_num [inDomain, scenario1])
    (by norm_num [inDomain, scenario1]) (by norm_num)

/-- C6 counterexample: two in-domain records differing only in PA (0 versus 2)
have strictly increasing probability, refuting the claim that increasing PA
never increases the probability. -/
theorem pa_increase_raises_probability :
    inDomain scenario1 ∧ inDomain { scenario1 with PA := 2 } ∧
    scenario1.PA < ({ scenario1 with PA := 2 } : PatientRecord).PA ∧
    (calculate_shap_values scenario1).current_value <
      (calculate_shap_values { scenario1 with PA := 2 }).current_value := by
  refine ⟨by norm_num [inDomain, scenario1], by norm_num [inDomain, scenario1], by norm_num [scenario1], ?_⟩
  norm_num [calculate_shap_values, current_value, clamp, current_value_raw, shap_sum,
    allFields, shap_value, base_value, scenario1]

/-- C6 amended: for in-domain records agreeing on all other fields,
increasing PA never DECREASES the probability, and changing smoke from 1 to
0 never increases the probability. -/
theorem pa_smoke_monotonicity_amended :
    (∀ (r : PatientRecord) (a₁ a₂ : ℚ), inDomain { r with PA := a₁ } →
      inDomain { r with PA := a₂ } → a₁ ≤ a₂ →
      (calculate_shap_values { r with PA := a₁ }).current_value ≤
        (calculate_shap_values { r with PA := a₂ }).current_value) ∧
    (∀ r : PatientRecord, inDomain { r with smoke := 1 } →
      inDomain { r with smoke := 0 } →
      (calculate_shap_values { r with smoke := 0 }).current_value ≤
        (calculate_shap_values { r with smoke := 1 }).current_value) := by
  constructor
  · intro r a₁ a₂ _ _ hle
    simp only [calculate_shap_values]
    unfold current_value
    apply clamp_mono
    rw [current_value_raw_formula, current_value_raw_formula]
    simp only
    linarith
  · intro r _ _
    simp only [calculate_shap_values]
    unfold current_value
    apply clamp_mono
    rw [current_value_raw_formula, current_value_raw_formula]
    simp only
    linarith

/-- Witness for the amended C6: raising PA from 0 to 2 on the scenario-1
record does not decrease the probability. -/
theorem pa_smoke_monotonicity_amended_witness :
    (calculate_shap_values { scenario1 with PA := 0 }).current_value ≤
      (calculate_shap_values { scenario1 with PA := 2 }).current_value :=
  pa_smoke_monotonicity_amended.1 scenario1 0 2 (by norm_num [inDomain, scenario1])
    (by norm_num [inDomain, scenario1]) (by norm_num)

/-- C7: the scorer's output is identical on two in-domain records that differ
only in bl_hgb, and the bl_hgb contribution is the constant -0.01. -/
theorem bl_hgb_noninterference (r : PatientRecord) (h₁ h₂ : ℚ)
    (hd₁ : inDomain { r with bl_hgb := h₁ }) (hd₂ : inDomain { r with bl_hgb := h₂ }) :
    calculate_shap_values { r with bl_hgb := h₁ } =
      calculate_shap_values { r with bl_hgb := h₂ } ∧
    (calculate_shap_values { r with bl_hgb := h₁ }).shap_values Feature.bl_hgb = -(1/100) := by
  constructor
  · have hs : shap_value { r with bl_hgb := h₁ } = shap_value { r with bl_hgb := h₂ } :=
      funext fun f => by cases f <;> rfl
    unfold calculate_shap_values current_value current_value_raw shap_sum
    rw [hs]
  · rfl

/-- Witness for C7: changing bl_hgb from 120 to 200 on the scenario-1 record
leaves the scorer's output unchanged. -/
theorem bl_hgb_noninterference_witness :
    calculate_shap_values { scenario1 with bl_hgb := 120 } =
      calculate_shap_values { scenario1 with bl_hgb := 200 } :=
  (bl_hgb_noninterference scenario1 120 200 (by norm_num [inDomain, scenario1])
    (by norm_num [inDomain, scenario1])).1

/-- C8 counterexample: on the scenario-1 record the scorer's probability is
exactly 129459/369200 ≈ 0.350647, which misses the claimed value 0.361 by
more than the tolerance 1e-6. -/
theorem scenario1_not_near_0361 :
    (calculate_shap_values scenario1).current_value = 129459/369200 ∧
    361/1000 - (calculate_shap_values scenario1).current_value > 1/1000000 := by
  constructor <;>
    norm_num [calculate_shap_values, current_value, clamp, current_value_raw, shap_sum,
      allFields, shap_value, base_value, scenario1]

/-- C8 amended: on the scenario-1 record the probability equals the §4.1
value 0.35 + 0.08*40/71 + 0.05*18.5/26 - 0.04 - 0.03 - 0.01 = 129459/369200
≈ 0.3506 (the PA term contributes -0.04 and the smoke term -0.03). -/
theorem scenario1_exact_probability :
    (calculate_shap_values scenario1).current_value =
      35/100 + 8/100 * (40/71) + 5/100 * ((37/2)/26) +
        -(2/100) * 2 + -(3/100) + -(1/100) ∧
    (calculate_shap_values scenario1).current_value = 129459/369200 := by
  constructor <;>
    norm_num [calculate_shap_values, current_value, clamp, current_value_raw, shap_sum,
      allFields, shap_value, base_value, scenario1]

/-- C9 counterexample: on the scenario-2 record the raw prediction is
222683/276900 ≈ 0.8042, strictly below the upper clamp bound 0.99, so the
probability is not clamped at or near 0.99. -/
theorem scenario2_not_clamped :
    current_value_raw scenario2 < 99/100 ∧
    (calculate_shap_values scenario2).current_value = 222683/276900 ∧
    (calculate_shap_values scenario2).current_value < 81/100 := by
  refine ⟨?_, ?_, ?_⟩ <;>
    norm_num [calculate_shap_values, current_value, clamp, current_value_raw, shap_sum,
      allFields, shap_value, base_value, scenario2]

/-- C9 amended: on the scenario-2 record the probability equals the raw
prediction 222683/276900 ≈ 0.8042 (no clamping occurs), and the record
still classifies as high risk. -/
theorem scenario2_exact_probability :
    (calculate_shap_values scenario2).current_value = 222683/276900 ∧
    (calculate_shap_values scenario2).current_value = current_value_raw scenario2 ∧
    (get_risk_recommendation (calculate_shap_values scenario2).current_value).1 = "high" := by
  refine ⟨?_, ?_, ?_⟩ <;>
    norm_num [get_risk_recommendation, calculate_shap_values, current_value, clamp,
      current_value_raw, shap_sum, allFields, shap_value, base_value, scenario2]

/-- C10: `get_risk_recommendation` is total with no precondition: for every
rational input, exactly one of the three threshold regions holds and the
function returns that region's tier paired with its fixed non-empty
guidance text. -/
theorem classifier_total_partition :
    ∀ p : ℚ,
      ((7/10 < p ∧ ¬(45/100 < p ∧ p ≤ 7/10) ∧ ¬(p ≤ 45/100) ∧
          get_risk_recommendation p = ("high", high_text)) ∨
       (¬(7/10 < p) ∧ (45/100 < p ∧ p ≤ 7/10) ∧ ¬(p ≤ 45/100) ∧
          get_risk_recommendation p = ("medium", medium_text)) ∨
       (¬(7/10 < p) ∧ ¬(45/100 < p ∧ p ≤ 7/10) ∧ (p ≤ 45/100) ∧
          get_risk_recommendation p = ("low", low_text))) ∧
      (get_risk_recommendation p).2 ≠ "" := by
  intro p
  constructor
  · unfold get_risk_recommendation
    split_ifs with h1 h2
    · exact Or.inl ⟨h1, fun hx => absurd h1 (not_lt.mpr hx.2),
        not_le.mpr ((by norm_num : (45:ℚ)/100 < 7/10).trans h1), rfl⟩
    · exact Or.inr (Or.inl ⟨h1, ⟨h2, not_lt.mp h1⟩, not_le.mpr h2, rfl⟩)
    · exact Or.inr (Or.inr ⟨h1, fun hx => absurd hx.1 h2, not_lt.mp h2, rfl⟩)
  · unfold get_risk_recommendation
    split_ifs <;> simp [high_text, medium_text, low_text]
